import Mathlib

/-!
Verification of the ProKeys process-orchestration layer (main.js and the
renderer script) against its specification.

The JavaScript is shallowly embedded: JS numbers are modeled as exact
rationals (every quantity compared in a theorem differs from its float
counterpart by far more than double-precision rounding error), filesystem
paths are component lists mirroring path.join, the mutable globals of the
Electron main process form an explicit AppState record, and each handler is
a pure function from state to (result, new state, emitted event trace).
-/

namespace ProKeys

/-- Filesystem paths as component lists, mirroring path.join usage. -/
abbrev FsPath := List String

namespace Main

/-- wpmToDelay from main.js (lines 185 to 198): baseDelay = 60 / (wpm * 5),
scaled by a band multiplier 1.2 / 1.3 / 1.4 / 1.5 for the bands
wpm < 60, wpm < 120, wpm < 200, wpm >= 200. -/
def wpmToDelay (wpm : ℚ) : ℚ :=
  let baseDelay : ℚ := 60 / (wpm * 5)
  if wpm < 60 then baseDelay * 1.2
  else if wpm < 120 then baseDelay * 1.3
  else if wpm < 200 then baseDelay * 1.4
  else baseDelay * 1.5

end Main

namespace Renderer

/-- wpmToDelay from the renderer script (lines 137 to 154): the same
baseDelay, scaled by (1 + overhead) with overhead 0.3 / 0.25 / 0.2 / 0.15
over the same four bands. -/
def wpmToDelay (wpm : ℚ) : ℚ :=
  let baseDelay : ℚ := 60 / (wpm * 5)
  let overhead : ℚ :=
    if wpm < 60 then 0.3
    else if wpm < 120 then 0.25
    else if wpm < 200 then 0.2
    else 0.15
  baseDelay * (1 + overhead)

end Renderer

/-- Persisted Configuration record. main.js stores objects with fields
typing_speed_wpm, delay, trigger_key; the debug field is absent from the
default (reading it yields the falsy undefined), modeled as Bool. -/
structure Config where
  typing_speed_wpm : ℚ
  delay : ℚ
  trigger_key : String
  debug : Bool
  deriving DecidableEq

/-- defaultConfig from main.js lines 25 to 29. The debug field is absent
in the JS literal; reading config.debug then yields undefined, which is
falsy, so it is modeled as false. -/
def defaultConfig : Config :=
  { typing_speed_wpm := 120
    delay := 0.01
    trigger_key := "cmd+shift+v"
    debug := false }

/-- Worker process handle (the pythonProcess global when non-null). -/
structure Handle where
  pid : Nat
  deriving DecidableEq

/-- The mutable globals of the Electron main process, plus the local
config copy held by the renderer surface. stored = none models a first
run where the electron-store key is absent. -/
structure AppState where
  stored : Option Config
  handle : Option Handle
  windowOpen : Bool
  trayExists : Bool
  rendererConfig : Option Config
  deriving DecidableEq

/-- store.get of the config key with defaultConfig as the default. -/
def storedOrDefault (s : AppState) : Config := s.stored.getD defaultConfig

/-- The get-config IPC handler (main.js lines 452 to 454). -/
def getConfigHandler (s : AppState) : Config := storedOrDefault s

/-- First-run state: nothing persisted, worker idle, both surfaces up. -/
def initialState : AppState :=
  { stored := none
    handle := none
    windowOpen := true
    trayExists := true
    rendererConfig := some defaultConfig }

/-- Arguments the worker is spawned with (main.js lines 362 to 374):
script path, --trigger-key, --delay (from the stored config), and the
optional --debug flag. -/
structure SpawnArgs where
  script : FsPath
  trigger_key : String
  delay : ℚ
  debug : Bool
  deriving DecidableEq

/-- Observable events emitted by the handlers, in program order: writes to
the worker-handle slot, kill signals, spawns, store writes, tray-menu
rebuilds (recording the running flag and config the tray displays), and
webContents.send messages to the window. -/
inductive Event where
  | handleSet (h : Option Handle)
  | kill (pid : Nat)
  | spawned (interp : FsPath) (args : SpawnArgs)
  | storeSet (c : Config)
  | tray (running : Bool) (cfg : Config)
  | winStopped
  | winStarted
  | winError (msg : String)
  | winConfigUpdated (c : Config)
  deriving DecidableEq

/-- Result object returned by startProKeys and stopProKeys. -/
structure OpResult where
  success : Bool
  error : Option String
  needsPermission : Bool
  deriving DecidableEq

/-- The { success: true } result. -/
def okResult : OpResult := ⟨true, none, false⟩

/-- The { success: false, error: m } result. -/
def errResult (m : String) : OpResult := ⟨false, some m, false⟩

/-- updateTrayMenu (main.js lines 69 to 136): returns early when no tray
exists, otherwise rebuilds the menu from store.get(config, defaultConfig)
and the running flag pythonProcess !== null. -/
def trayEvents (s : AppState) : List Event :=
  if s.trayExists then [Event.tray s.handle.isSome (storedOrDefault s)] else []

/-- Error string from main.js line 203. -/
def msgAlreadyRunning : String := "ProKeys is already running"

/-- Error string from main.js line 448. -/
def msgNotRunning : String := "ProKeys is not running"

/-- Error string from main.js line 211. -/
def msgPermissionRequired : String := "Accessibility permission required"

/-- Error string from main.js line 289. -/
def msgScriptNotFound : String := "ProKeys script not found in any expected location"

/-- Error string from main.js line 335: the system dependency probe ran but
its output lacked the success marker. -/
def msgSystemDepsNamed : String :=
  "Required Python modules (pyperclip, pynput) not available in system Python. Please install them with: pip3 install pyperclip pynput"

/-- Error string from main.js line 343: a probe of the system interpreter
threw (timeout or non-zero exit). -/
def msgNeither : String :=
  "Neither bundled nor system Python is available or has required dependencies"

/-- Error string from main.js line 349: the candidate was already the
system interpreter and its validation failed. -/
def msgPythonUnavailable : String :=
  "Python is not available or missing required dependencies (pyperclip, pynput)"

/-- Whether pat is a leading segment of the second list. -/
def leadSegment : List Char → List Char → Bool
  | [], _ => true
  | _ :: _, [] => false
  | a :: pa, b :: lb => a == b && leadSegment pa lb

/-- Whether pat occurs as a contiguous segment anywhere in the list, the
List-level meaning of the JS String.includes used by main.js. -/
def segmentIn (pat : List Char) : List Char → Bool
  | [] => pat.isEmpty
  | c :: rest => leadSegment pat (c :: rest) || segmentIn pat rest

/-- Whether an error message names the missing Python dependencies, read as
containing the module name pyperclip. -/
def namesDeps (m : String) : Bool := segmentIn "pyperclip".toList m.toList

/-- result.includes of the fixed success marker (main.js lines 312, 334). -/
def hasMarker (out : String) : Bool := segmentIn "Dependencies OK".toList out.toList

/-- Outcome of one execSync call: an exception (timeout, missing
executable, or non-zero exit) or the captured stdout text. -/
inductive ProbeResult where
  | throws
  | returns (out : String)
  deriving DecidableEq

/-- The environment a start attempt runs against: the permission check,
the packaging mode and directory layout, which paths exist on disk, the
outcome of each execSync probe per interpreter, and whether the spawn call
itself returns without throwing synchronously. -/
structure Env where
  hasAccessibilityPermission : Bool
  isPackaged : Bool
  dirname : FsPath
  resourcesPath : FsPath
  fsExists : FsPath → Bool
  probeVersion : FsPath → ProbeResult
  probeDeps : FsPath → ProbeResult
  spawnOk : Bool
  spawnErrMsg : String
  newPid : Nat

/-- path.join(base, venv_portable, bin, python) from main.js line 250. -/
def venvPython (base : FsPath) : FsPath := base ++ ["venv_portable", "bin", "python"]

/-- path.join(base, prokeys.py) from main.js lines 252 to 253. -/
def scriptAt (base : FsPath) : FsPath := base ++ ["prokeys.py"]

/-- The system interpreter name python3 (main.js line 220). -/
def sysPython : FsPath := ["python3"]

/-- The ordered base directories (main.js lines 233 to 244): dev uses
only __dirname; packaged uses resourcesPath then resourcesPath/.. . -/
def basePaths (env : Env) : List FsPath :=
  if env.isPackaged then [env.resourcesPath, env.resourcesPath ++ [".."]]
  else [env.dirname]

/-- The for-loop of main.js lines 249 to 269: the first base directory
where BOTH the bundled interpreter and the script exist wins; a base where
only one exists leaves the slot null and the loop continues. -/
def findBundled (fs : FsPath → Bool) : List FsPath → Option (FsPath × FsPath)
  | [] => none
  | b :: rest =>
    if fs (venvPython b) && fs (scriptAt b) then some (venvPython b, scriptAt b)
    else findBundled fs rest

/-- The fallback script location (main.js lines 274 to 276): dev uses
__dirname/prokeys.py, packaged uses resourcesPath/prokeys.py. -/
def fallbackScriptPath (env : Env) : FsPath :=
  if env.isPackaged then env.resourcesPath ++ ["prokeys.py"]
  else env.dirname ++ ["prokeys.py"]

/-- The runtime locator (main.js lines 232 to 292): bundled pair from the
first fully-satisfying base directory, else the system interpreter paired
with the fallback script when that script alone exists, else nothing. -/
def locate (env : Env) : Option (FsPath × FsPath) :=
  match findBundled env.fsExists (basePaths env) with
  | some pr => some pr
  | none =>
    if env.fsExists (fallbackScriptPath env) then some (sysPython, fallbackScriptPath env)
    else none

/-- The try-block of main.js lines 297 to 316 for one interpreter: the
version probe must not throw, the dependency probe must not throw, and the
dependency output must contain the success marker. -/
def validateOnce (env : Env) (py : FsPath) : Bool :=
  match env.probeVersion py with
  | .throws => false
  | .returns _ =>
    match env.probeDeps py with
    | .throws => false
    | .returns out => hasMarker out

/-- Outcome of the whole validation phase: the interpreter to spawn with,
or the error message returned from startProKeys. -/
inductive ValidationOutcome where
  | ok (interp : FsPath)
  | fail (msg : String)
  deriving DecidableEq

/-- The validation phase of main.js lines 294 to 353, also returning the
ordered list of interpreters a validation attempt was run against. On
failure of a bundled candidate the catch block retries once with python3:
an exception there yields the generic message of line 343, a completed
probe without the marker yields the dependency-naming message of line 335,
and a marker match proceeds with the system interpreter. When the failing
candidate already was python3, line 349 reports without any retry. -/
def validate (env : Env) (py : FsPath) : ValidationOutcome × List FsPath :=
  if validateOnce env py then (.ok py, [py])
  else if py ≠ sysPython then
    match env.probeVersion sysPython with
    | .throws => (.fail msgNeither, [py, sysPython])
    | .returns _ =>
      match env.probeDeps sysPython with
      | .throws => (.fail msgNeither, [py, sysPython])
      | .returns out =>
        if hasMarker out then (.ok sysPython, [py, sysPython])
        else (.fail msgSystemDepsNamed, [py, sysPython])
  else (.fail msgPythonUnavailable, [py])

/-- startProKeys (main.js lines 201 to 439): already-running guard first,
then the permission check, then locate, validate, and spawn. On a spawn
that returns without throwing, the handle slot is filled and
{ success: true } is returned; the delayed tray refresh scheduled by
setTimeout is asynchronous and not part of the synchronous trace. -/
def startProKeys (env : Env) (s : AppState) : OpResult × AppState × List Event :=
  if s.handle.isSome then (errResult msgAlreadyRunning, s, [])
  else if env.hasAccessibilityPermission = false then
    ({ success := false, error := some msgPermissionRequired, needsPermission := true }, s, [])
  else
    match locate env with
    | none => (errResult msgScriptNotFound, s, [])
    | some (py, script) =>
      match (validate env py).1 with
      | .fail m => (errResult m, s, [])
      | .ok interp =>
        let cfg := storedOrDefault s
        let args : SpawnArgs :=
          { script := script
            trigger_key := cfg.trigger_key
            delay := cfg.delay
            debug := cfg.debug }
        if env.spawnOk then
          let h : Handle := ⟨env.newPid⟩
          (okResult, { s with handle := some h },
            [Event.spawned interp args, Event.handleSet (some h)])
        else (errResult ("Failed to spawn Python process: " ++ env.spawnErrMsg), s, [])

/-- The close handler installed on the worker (main.js lines 401 to 408):
pythonProcess = null first, then updateTrayMenu, then the prokeys-stopped
message when the window is open. The exit code is only logged. -/
def onClose (_code : Int) (s : AppState) : AppState × List Event :=
  let s1 : AppState := { s with handle := none }
  (s1, [Event.handleSet none] ++ trayEvents s1 ++
    (if s1.windowOpen then [Event.winStopped] else []))

/-- The error handler installed on the worker (main.js lines 410 to 418):
pythonProcess = null, updateTrayMenu, a prokeys-error message to the
window, and a failure object that is returned from the callback into the
void: no caller of startProKeys ever receives it. -/
def onSpawnError (emsg : String) (s : AppState) : OpResult × AppState × List Event :=
  let s1 : AppState := { s with handle := none }
  (errResult ("Failed to start Python process: " ++ emsg),
   s1,
   [Event.handleSet none] ++ trayEvents s1 ++
     (if s1.windowOpen then [Event.winError ("Process spawn error: " ++ emsg)] else []))

/-- stopProKeys (main.js lines 441 to 449): when a handle exists, kill it,
clear the slot, rebuild the tray, and report success at once; the handler
never waits for the close event. When idle it reports the not-running
error and does nothing else. -/
def stopProKeys (s : AppState) : OpResult × AppState × List Event :=
  match s.handle with
  | some h =>
    let s1 : AppState := { s with handle := none }
    (okResult, s1, [Event.kill h.pid, Event.handleSet none] ++ trayEvents s1)
  | none => (errResult msgNotRunning, s, [])

/-- The save-config IPC handler (main.js lines 456 to 460): persist the
config object as given, rebuild the tray, return true. -/
def saveConfigHandler (c : Config) (s : AppState) : Bool × AppState × List Event :=
  let s1 : AppState := { s with stored := some c }
  (true, s1, [Event.storeSet c] ++ trayEvents s1)

/-- The renderer speed-slider handler (renderer lines 50 to 58 and 133 to
135): update the local config copy with the new wpm and the renderer-side
derived delay, then invoke the save-config IPC handler with it. Before
init has loaded a config the listener is not attached, modeled as no-op. -/
def rendererSetSpeed (wpm : ℚ) (s : AppState) : Bool × AppState × List Event :=
  match s.rendererConfig with
  | none => (false, s, [])
  | some c0 =>
    let c1 : Config := { c0 with typing_speed_wpm := wpm, delay := Renderer.wpmToDelay wpm }
    let s1 : AppState := { s with rendererConfig := some c1 }
    saveConfigHandler c1 s1

/-- The full Configuration the renderer slider handler builds for a new
wpm value: the old record with the wpm and the renderer-derived delay. -/
def rendererNewConfig (c0 : Config) (wpm : ℚ) : Config :=
  { c0 with typing_speed_wpm := wpm, delay := Renderer.wpmToDelay wpm }

/-- updateSpeedFromTray (main.js lines 165 to 183): read the stored config,
set the new wpm and the main-process derived delay, persist, rebuild the
tray, and send config-updated to the window when open. -/
def updateSpeedFromTray (newSpeed : ℚ) (s : AppState) : AppState × List Event :=
  let c0 := storedOrDefault s
  let c1 : Config := { c0 with typing_speed_wpm := newSpeed, delay := Main.wpmToDelay newSpeed }
  let s1 : AppState := { s with stored := some c1 }
  (s1, [Event.storeSet c1] ++ trayEvents s1 ++
    (if s1.windowOpen then [Event.winConfigUpdated c1] else []))

/-- Whether an event is a write to the worker-handle slot. -/
def isHandleWrite : Event → Bool
  | .handleSet _ => true
  | _ => false

/-- Whether an event is the prokeys-stopped broadcast. -/
def isStoppedNotice : Event → Bool
  | .winStopped => true
  | _ => false

/-- Whether an event is visible to an observer surface (tray rebuild or a
webContents.send message), as opposed to an internal slot or store write. -/
def isObserverNotice : Event → Bool
  | .tray _ _ => true
  | .winStopped => true
  | .winStarted => true
  | .winError _ => true
  | .winConfigUpdated _ => true
  | _ => false

/-- Modelled from the spec: the Runtime Locator contract of spec section
4.2, stated with List.find? (both files required, first fully-satisfying
base directory wins, system fallback on script alone, otherwise nothing).
Used only to be compared against locate, which is translated from the
source. -/
def locateSpec (env : Env) : Option (FsPath × FsPath) :=
  match (basePaths env).find?
      (fun b => env.fsExists (venvPython b) && env.fsExists (scriptAt b)) with
  | some b => some (venvPython b, scriptAt b)
  | none =>
    if env.fsExists (fallbackScriptPath env) then some (sysPython, fallbackScriptPath env)
    else none

/-- Every path whose existence the locator can consult. -/
def probedPaths (env : Env) : List FsPath :=
  (basePaths env).map venvPython ++ (basePaths env).map scriptAt ++ [fallbackScriptPath env]

/-- A state with a live worker handle and both surfaces up. -/
def runningState : AppState :=
  { stored := none
    handle := some ⟨7⟩
    windowOpen := true
    trayExists := true
    rendererConfig := some defaultConfig }

/-- A filesystem with only the dev-mode fallback script present and a
healthy system interpreter. -/
def envSys : Env :=
  { hasAccessibilityPermission := true
    isPackaged := false
    dirname := ["app"]
    resourcesPath := ["res"]
    fsExists := fun p => decide (p = ["app", "prokeys.py"])
    probeVersion := fun _ => ProbeResult.returns "Python 3.11.0"
    probeDeps := fun _ => ProbeResult.returns "Dependencies OK"
    spawnOk := true
    spawnErrMsg := ""
    newPid := 101 }

/-- A packaged layout with a complete bundled runtime whose probes all
throw, and a system interpreter whose probes also throw. -/
def envC7 : Env :=
  { hasAccessibilityPermission := true
    isPackaged := true
    dirname := ["app"]
    resourcesPath := ["res"]
    fsExists := fun p => decide (p = venvPython ["res"]) || decide (p = scriptAt ["res"])
    probeVersion := fun _ => ProbeResult.throws
    probeDeps := fun _ => ProbeResult.throws
    spawnOk := true
    spawnErrMsg := ""
    newPid := 1 }

/-- Same layout as envC7 but with a healthy system interpreter: the
bundled probes throw, the python3 probes succeed with the marker. -/
def envC7sys : Env :=
  { envC7 with
    probeVersion := fun p =>
      if p = sysPython then ProbeResult.returns "Python 3.11.0" else ProbeResult.throws
    probeDeps := fun p =>
      if p = sysPython then ProbeResult.returns "Dependencies OK" else ProbeResult.throws }

/-- A filesystem where nothing exists at all. -/
def envEmpty : Env :=
  { hasAccessibilityPermission := true
    isPackaged := false
    dirname := ["app"]
    resourcesPath := ["res"]
    fsExists := fun _ => false
    probeVersion := fun _ => ProbeResult.throws
    probeDeps := fun _ => ProbeResult.throws
    spawnOk := true
    spawnErrMsg := ""
    newPid := 1 }

/-- C1: the claim that the supervisor copy (main.js wpmToDelay) and the UI
copy (renderer wpmToDelay) are equal as functions on [9,999] is refuted by
the code: at wpm = 120 the supervisor returns 0.1 * 1.4 = 0.14 while the
renderer returns 0.1 * 1.2 = 0.12. The two copies use different band
multipliers, so there is no single authoritative implementation. -/
theorem C1_speed_model_copies_diverge :
    (9 : ℚ) ≤ 120 ∧ (120 : ℚ) ≤ 999 ∧
    Main.wpmToDelay 120 ≠ Renderer.wpmToDelay 120 := by
  refine ⟨by norm_num, by norm_num, ?_⟩
  norm_num [Main.wpmToDelay, Renderer.wpmToDelay]

/-- C2: the claim that main.js wpmToDelay is strictly decreasing on [9,999]
is refuted by the code: the band multipliers grow with speed (1.3 below
120 but 1.4 from 120), so the delay jumps up across the band boundary,
delayFor(119) = 78/595 < delayFor(120) = 7/50. The reference-value and
positivity parts of the claim do hold at these inputs. -/
theorem C2_delay_not_strictly_decreasing :
    (9 : ℚ) ≤ 119 ∧ (119 : ℚ) < 120 ∧ (120 : ℚ) ≤ 999 ∧
    Main.wpmToDelay 119 < Main.wpmToDelay 120 ∧
    Main.wpmToDelay 120 = (60 / (120 * 5) : ℚ) * 1.4 ∧
    0 < Main.wpmToDelay 119 := by
  refine ⟨by norm_num, by norm_num, by norm_num, ?_, ?_, ?_⟩ <;>
    norm_num [Main.wpmToDelay]

/-- C3: the claim that every persisted or default Configuration has
delay = SpeedModel(typing_speed_wpm) is refuted by the code: the first-run
default is 120 WPM with the hard-coded delay 0.01, while the speed model
gives 0.14 (main.js) or 0.12 (renderer) at 120 WPM. Moreover the tray
path and the renderer path persist different delays for the same 100 WPM,
so no single speed model makes both persisted records consistent. -/
theorem C3_default_config_breaks_delay_invariant :
    getConfigHandler initialState = defaultConfig ∧
    defaultConfig.typing_speed_wpm = 120 ∧
    defaultConfig.delay ≠ Main.wpmToDelay defaultConfig.typing_speed_wpm ∧
    defaultConfig.delay ≠ Renderer.wpmToDelay defaultConfig.typing_speed_wpm ∧
    (updateSpeedFromTray 100 initialState).1.stored.map Config.delay
      = some (Main.wpmToDelay 100) ∧
    (rendererSetSpeed 100 initialState).2.1.stored.map Config.delay
      = some (Renderer.wpmToDelay 100) ∧
    Main.wpmToDelay 100 ≠ Renderer.wpmToDelay 100 := by
  refine ⟨rfl, rfl, ?_, ?_, rfl, rfl, ?_⟩ <;>
    norm_num [defaultConfig, Main.wpmToDelay, Renderer.wpmToDelay]

/-- C4: on worker exit with any exit code, the close handler clears the
worker-handle slot strictly before any observer notification, the tray
observer is shown the Stopped state, and exactly one stopped broadcast and
exactly one slot write result. -/
theorem C4_close_clears_before_notify (s : AppState) (code : Int) (h : Handle)
    (_hrun : s.handle = some h) (hwin : s.windowOpen = true) (htray : s.trayExists = true) :
    (onClose code s).1.handle = none ∧
    (onClose code s).2 =
      [Event.handleSet none, Event.tray false (storedOrDefault s), Event.winStopped] ∧
    (onClose code s).2.countP isStoppedNotice = 1 ∧
    (onClose code s).2.countP isHandleWrite = 1 ∧
    (∀ b cfg, Event.tray b cfg ∈ (onClose code s).2 → b = false) ∧
    (∃ post, (onClose code s).2 = Event.handleSet none :: post) := by
  have htr : (onClose code s).2 =
      [Event.handleSet none, Event.tray false (storedOrDefault s), Event.winStopped] := by
    simp [onClose, trayEvents, htray, hwin, storedOrDefault]
  refine ⟨rfl, htr, ?_, ?_, ?_, ⟨_, htr⟩⟩
  · rw [htr]; rfl
  · rw [htr]; rfl
  · intro b cfg hmem
    rw [htr] at hmem
    simp only [List.mem_cons, List.not_mem_nil, or_false] at hmem
    rcases hmem with h1 | h1 | h1 <;> simp_all

/-- Witness for C4 at a concrete running state and exit code 137. -/
theorem C4_close_witness : (onClose 137 runningState).1.handle = none :=
  (C4_close_clears_before_notify runningState 137 ⟨7⟩ rfl rfl rfl).1

/-- C5: saving a new Configuration from the UI while the worker is Running
persists the new full Configuration, leaves the worker untouched (same
handle, no kill, no spawn, no slot write in the trace), and immediately
updates the snapshot of each surface: the tray is rebuilt from the new
Configuration still showing Running, and the UI local copy holds it. -/
theorem C5_save_config_leaves_worker_untouched (s : AppState) (c0 : Config) (h : Handle)
    (wpm : ℚ) (hr : s.rendererConfig = some c0) (hh : s.handle = some h)
    (htray : s.trayExists = true) :
    (rendererSetSpeed wpm s).1 = true ∧
    (rendererSetSpeed wpm s).2.1.handle = some h ∧
    (rendererSetSpeed wpm s).2.1.stored = some (rendererNewConfig c0 wpm) ∧
    (rendererSetSpeed wpm s).2.1.rendererConfig = some (rendererNewConfig c0 wpm) ∧
    (rendererSetSpeed wpm s).2.2 =
      [Event.storeSet (rendererNewConfig c0 wpm),
       Event.tray true (rendererNewConfig c0 wpm)] ∧
    (∀ p, Event.kill p ∉ (rendererSetSpeed wpm s).2.2) ∧
    (∀ i a, Event.spawned i a ∉ (rendererSetSpeed wpm s).2.2) ∧
    (∀ oh, Event.handleSet oh ∉ (rendererSetSpeed wpm s).2.2) := by
  have key : rendererSetSpeed wpm s =
      (true,
       { s with
          rendererConfig := some (rendererNewConfig c0 wpm),
          stored := some (rendererNewConfig c0 wpm) },
       [Event.storeSet (rendererNewConfig c0 wpm),
        Event.tray true (rendererNewConfig c0 wpm)]) := by
    simp [rendererSetSpeed, hr, saveConfigHandler, trayEvents, htray, storedOrDefault, hh,
      rendererNewConfig]
  rw [key]
  refine ⟨rfl, hh, rfl, rfl, rfl, ?_, ?_, ?_⟩ <;> intros <;> simp

/-- Witness for C5 at a concrete running state and 300 WPM. -/
theorem C5_save_config_witness :
    (rendererSetSpeed 300 runningState).2.1.handle = some ⟨7⟩ :=
  (C5_save_config_leaves_worker_untouched runningState defaultConfig ⟨7⟩ 300 rfl rfl rfl).2.1

/-- A start attempt from Idle under permission, a located candidate, a
passing validation and a non-throwing spawn returns success, fills the
handle slot, and emits the spawn and the single slot write. -/
theorem startProKeys_success_eq (env : Env) (s0 : AppState) (py script interp : FsPath)
    (h0 : s0.handle = none) (hp : env.hasAccessibilityPermission = true)
    (hl : locate env = some (py, script))
    (hv : (validate env py).1 = ValidationOutcome.ok interp)
    (hs : env.spawnOk = true) :
    startProKeys env s0 =
      (okResult, { s0 with handle := some ⟨env.newPid⟩ },
        [Event.spawned interp
          { script := script, trigger_key := (storedOrDefault s0).trigger_key,
            delay := (storedOrDefault s0).delay, debug := (storedOrDefault s0).debug },
         Event.handleSet (some ⟨env.newPid⟩)]) := by
  simp [startProKeys, h0, hp, hl, hv, hs]

/-- C6: a start while a handle exists returns the already-running error
with no transition and no work, for every environment; two starts without
an intervening stop give exactly one slot fill (one Running transition)
and one already-running error, so the slot never holds two handles. -/
theorem C6_double_start (env : Env) (s0 : AppState) (py script interp : FsPath)
    (h0 : s0.handle = none) (hp : env.hasAccessibilityPermission = true)
    (hl : locate env = some (py, script))
    (hv : (validate env py).1 = ValidationOutcome.ok interp)
    (hs : env.spawnOk = true) :
    (startProKeys env s0).1 = okResult ∧
    (startProKeys env s0).2.1.handle = some ⟨env.newPid⟩ ∧
    (startProKeys env s0).2.2.countP isHandleWrite = 1 ∧
    (∀ env2 : Env, startProKeys env2 (startProKeys env s0).2.1 =
      (errResult msgAlreadyRunning, (startProKeys env s0).2.1, [])) := by
  have hstart := startProKeys_success_eq env s0 py script interp h0 hp hl hv hs
  rw [hstart]
  refine ⟨rfl, rfl, rfl, ?_⟩
  intro env2
  simp [startProKeys]

/-- Witness for C6 with only the dev fallback script and a healthy
system interpreter. -/
theorem C6_witness : (startProKeys envSys initialState).1 = okResult :=
  (C6_double_start envSys initialState sysPython ["app", "prokeys.py"] sysPython
    rfl rfl rfl rfl rfl).1

/-- C7 counterexample: with a complete bundled runtime whose probes throw
and a system interpreter whose probes also throw, validation fails
terminally, but the error startProKeys returns is the generic message of
main.js line 343, which does not name the missing dependencies; the claim
that the terminal message always names them is false at this input. -/
theorem C7_counterexample :
    locate envC7 = some (venvPython ["res"], scriptAt ["res"]) ∧
    validateOnce envC7 (venvPython ["res"]) = false ∧
    (validate envC7 (venvPython ["res"])).1 = ValidationOutcome.fail msgNeither ∧
    namesDeps msgNeither = false ∧
    (startProKeys envC7 initialState).1 = errResult msgNeither :=
  ⟨rfl, rfl, rfl, rfl, rfl⟩

/-- C7 as amended: when validation of a bundled candidate fails, the
supervisor retries exactly once against python3 and never again; an
exception from a system probe yields the generic terminal message, which
does not name the missing dependencies; only a system dependency probe
that completes without the success marker yields the terminal message
naming pyperclip and pynput; a marker match proceeds with python3. -/
theorem C7_bundled_failure_retries_system_once (env : Env) (py : FsPath)
    (hb : py ≠ sysPython) (hf : validateOnce env py = false) :
    (validate env py).2 = [py, sysPython] ∧
    (env.probeVersion sysPython = ProbeResult.throws →
      (validate env py).1 = ValidationOutcome.fail msgNeither) ∧
    (∀ v, env.probeVersion sysPython = ProbeResult.returns v →
      env.probeDeps sysPython = ProbeResult.throws →
      (validate env py).1 = ValidationOutcome.fail msgNeither) ∧
    (∀ v d, env.probeVersion sysPython = ProbeResult.returns v →
      env.probeDeps sysPython = ProbeResult.returns d →
      ((hasMarker d = true → (validate env py).1 = ValidationOutcome.ok sysPython) ∧
       (hasMarker d = false →
         (validate env py).1 = ValidationOutcome.fail msgSystemDepsNamed))) ∧
    namesDeps msgSystemDepsNamed = true ∧
    namesDeps msgNeither = false := by
  have hval : validate env py =
      (match env.probeVersion sysPython with
       | .throws => (.fail msgNeither, [py, sysPython])
       | .returns _ =>
         match env.probeDeps sysPython with
         | .throws => (.fail msgNeither, [py, sysPython])
         | .returns out =>
           if hasMarker out then (.ok sysPython, [py, sysPython])
           else (.fail msgSystemDepsNamed, [py, sysPython])) := by
    unfold validate
    rw [hf]
    simp [hb]
  refine ⟨?_, ?_, ?_, ?_, rfl, rfl⟩
  · rw [hval]
    rcases env.probeVersion sysPython with _ | v
    · rfl
    · rcases env.probeDeps sysPython with _ | d
      · rfl
      · by_cases hm : hasMarker d = true
        · simp [hm]
        · simp [hm]
  · intro hthrows
    rw [hval, hthrows]
  · intro v hv hd
    rw [hval, hv, hd]
  · intro v d hv hd
    constructor
    · intro hm
      rw [hval, hv, hd]
      simp [hm]
    · intro hm
      rw [hval, hv, hd]
      simp [hm]

/-- Witness for the amended C7: the bundled probes throw while the system
probes succeed with the marker, and validation settles on python3. -/
theorem C7_witness :
    (validate envC7sys (venvPython ["res"])).1 = ValidationOutcome.ok sysPython :=
  ((C7_bundled_failure_retries_system_once envC7sys (venvPython ["res"]) (by decide)
      rfl).2.2.2.1 "Python 3.11.0" "Dependencies OK" rfl rfl).1 rfl

/-- The source loop over base directories agrees with List.find? over the
both-files-present test. -/
theorem findBundled_eq_findFirst (fs : FsPath → Bool) (l : List FsPath) :
    findBundled fs l =
      (l.find? (fun b => fs (venvPython b) && fs (scriptAt b))).map
        (fun b => (venvPython b, scriptAt b)) := by
  induction l with
  | nil => rfl
  | cons b rest ih =>
    simp only [findBundled, List.find?]
    by_cases hc : (fs (venvPython b) && fs (scriptAt b)) = true
    · simp [hc]
    · simp only [Bool.not_eq_true] at hc
      simp [hc, ih]

/-- The loop result depends only on the existence of the two fixed files
under each base directory. -/
theorem findBundled_congr (f g : FsPath → Bool) (l : List FsPath)
    (hfg : ∀ b ∈ l, f (venvPython b) = g (venvPython b) ∧ f (scriptAt b) = g (scriptAt b)) :
    findBundled f l = findBundled g l := by
  induction l with
  | nil => rfl
  | cons b rest ih =>
    obtain ⟨h1, h2⟩ := hfg b (List.mem_cons_self _ _)
    have hrest := ih fun b2 hb2 => hfg b2 (List.mem_cons_of_mem _ hb2)
    simp only [findBundled, h1, h2]
    by_cases hc : (g (venvPython b) && g (scriptAt b)) = true
    · simp [hc]
    · simp only [Bool.not_eq_true] at hc
      simp [hc, hrest]

/-- C8: the locator equals its specification contract (ordered base list,
both files required so partial matches are rejected, first
fully-satisfying base wins, system fallback when the script alone exists,
nothing otherwise); when it yields nothing, startProKeys from Idle with
permission returns the script-not-found error; and resolution is
deterministic, depending only on the mode, the two layout directories and
the existence of the finitely many probed paths. -/
theorem C8_locator_matches_contract (env : Env) :
    locate env = locateSpec env ∧
    (locate env = none → ∀ s : AppState, s.handle = none →
      env.hasAccessibilityPermission = true →
      (startProKeys env s).1 = errResult msgScriptNotFound) ∧
    (∀ env2 : Env, env2.isPackaged = env.isPackaged → env2.dirname = env.dirname →
      env2.resourcesPath = env.resourcesPath →
      (∀ p ∈ probedPaths env, env2.fsExists p = env.fsExists p) →
      locate env2 = locate env) := by
  refine ⟨?_, ?_, ?_⟩
  · unfold locate locateSpec
    rw [findBundled_eq_findFirst]
    cases (basePaths env).find? (fun b => env.fsExists (venvPython b) && env.fsExists (scriptAt b)) with
    | none => simp
    | some b => simp
  · intro hnone s hh hp
    simp [startProKeys, hh, hp, hnone]
  · intro env2 hpk hdir hres hag
    have hbase : basePaths env2 = basePaths env := by
      simp [basePaths, hpk, hdir, hres]
    have hfb : fallbackScriptPath env2 = fallbackScriptPath env := by
      simp [fallbackScriptPath, hpk, hdir, hres]
    have hfind : findBundled env2.fsExists (basePaths env) =
        findBundled env.fsExists (basePaths env) := by
      apply findBundled_congr
      intro b hb
      constructor
      · refine hag _ ?_
        simp only [probedPaths, List.mem_append, List.mem_map]
        exact Or.inl (Or.inl ⟨b, hb, rfl⟩)
      · refine hag _ ?_
        simp only [probedPaths, List.mem_append, List.mem_map]
        exact Or.inl (Or.inr ⟨b, hb, rfl⟩)
    have hfmem : fallbackScriptPath env ∈ probedPaths env := by
      simp [probedPaths]
    unfold locate
    rw [hbase, hfind, hfb, hag _ hfmem]

/-- Witness for C8: on an empty filesystem the locator yields nothing and
a permitted start from Idle returns the script-not-found error. -/
theorem C8_witness : (startProKeys envEmpty initialState).1 = errResult msgScriptNotFound :=
  (C8_locator_matches_contract envEmpty).2.1 rfl initialState rfl rfl

/-- C9: stop on Idle returns the not-running error with the state
unchanged and an empty trace (no transition, no observer notification);
stop while Running reports success at once, sends the kill signal, clears
the slot, and its result depends only on the handle slot, never on any
confirmation of process death. -/
theorem C9_stop_idle_and_running (s : AppState) :
    (s.handle = none → stopProKeys s = (errResult msgNotRunning, s, [])) ∧
    (∀ h : Handle, s.handle = some h →
      (stopProKeys s).1 = okResult ∧
      (stopProKeys s).2.1.handle = none ∧
      Event.kill h.pid ∈ (stopProKeys s).2.2 ∧
      (∀ s2 : AppState, s2.handle = s.handle → (stopProKeys s2).1 = (stopProKeys s).1)) := by
  constructor
  · intro hn
    simp [stopProKeys, hn]
  · intro h hh
    have hst : stopProKeys s = (okResult, { s with handle := none },
        [Event.kill h.pid, Event.handleSet none] ++ trayEvents { s with handle := none }) := by
      simp [stopProKeys, hh]
    refine ⟨by rw [hst], by rw [hst], by rw [hst]; simp, ?_⟩
    intro s2 h2
    rw [hst]
    rw [hh] at h2
    simp [stopProKeys, h2]

/-- Witness for C9: stop on the first-run Idle state. -/
theorem C9_witness : stopProKeys initialState = (errResult msgNotRunning, initialState, []) :=
  (C9_stop_idle_and_running initialState).1 rfl

/-- C10: after a spawn that returns without throwing, startProKeys has
already returned success; the later error event clears the handle and
notifies observers, and the failure object it builds is discarded, so the
value the caller of startProKeys observed stays success = true for a
start that in fact failed. -/
theorem C10_spawn_error_cannot_revoke_success (env : Env) (s0 : AppState)
    (py script interp : FsPath) (emsg : String)
    (h0 : s0.handle = none) (hwin : s0.windowOpen = true) (htray : s0.trayExists = true)
    (hp : env.hasAccessibilityPermission = true)
    (hl : locate env = some (py, script))
    (hv : (validate env py).1 = ValidationOutcome.ok interp)
    (hs : env.spawnOk = true) :
    (startProKeys env s0).1.success = true ∧
    (onSpawnError emsg (startProKeys env s0).2.1).1.success = false ∧
    (onSpawnError emsg (startProKeys env s0).2.1).2.1.handle = none ∧
    Event.winError ("Process spawn error: " ++ emsg) ∈
      (onSpawnError emsg (startProKeys env s0).2.1).2.2 ∧
    (startProKeys env s0).1 = okResult := by
  have hstart := startProKeys_success_eq env s0 py script interp h0 hp hl hv hs
  rw [hstart]
  refine ⟨rfl, rfl, rfl, ?_, rfl⟩
  simp [onSpawnError, trayEvents, hwin, htray, errResult]

/-- Witness for C10 with the system-interpreter environment and a
concrete spawn-error message. -/
theorem C10_witness :
    (onSpawnError "ENOENT" (startProKeys envSys initialState).2.1).2.1.handle = none :=
  (C10_spawn_error_cannot_revoke_success envSys initialState sysPython ["app", "prokeys.py"]
    sysPython "ENOENT" rfl rfl rfl rfl rfl rfl rfl).2.2.1

end ProKeys
